import Mathlib

/-!
Shallow embedding of `pilot/scripts/stagein.py` (PalNilsson/pilot2):
the descriptor-reconciliation and result-aggregation pipeline of the
stage-in script.  Strings are modelled as `List Char`; dynamically typed
Python values that can be a string, a bool, an int or `None` are modelled
by the inductive `PyVal`; Python `None` arguments (whose `.split` raises)
are modelled by `Option (List Char)` inputs; a caught exception is
modelled by the corresponding early-return path.
-/

set_option maxRecDepth 4000

namespace Stagein

/-- Python values appearing in the stage-in report and descriptor fields:
`None`, a bool, an int, or a string. -/
inductive PyVal : Type where
  | pnone : PyVal
  | pbool : Bool → PyVal
  | pint : Int → PyVal
  | pstr : List Char → PyVal
  deriving DecidableEq, Repr

/-- `lpre pat s` : does `s` start with `pat`?  (prefix test on char lists). -/
def lpre : List Char → List Char → Bool
  | [], _ => true
  | _ :: _, [] => false
  | a :: ps, b :: ss => a = b && lpre ps ss

/-- Python `pat in s` substring test. -/
def hasSub : List Char → List Char → Bool
  | s, pat =>
    match s with
    | [] => lpre pat []
    | _ :: t => lpre pat s || hasSub t pat

/-- Python whitespace characters recognised by `str.strip()`. -/
def isPySpace (c : Char) : Bool :=
  c = ' ' || c = '\t' || c = '\n' || c = '\x0d' || c = '\x0b' || c = '\x0c'

/-- Python `str.strip()`: drop leading and trailing whitespace. -/
def pyStrip (s : List Char) : List Char :=
  ((s.dropWhile isPySpace).reverse.dropWhile isPySpace).reverse

/-- Fuel-driven scan for `replaceAll`; the fuel starts at the length of the
string and each step consumes at least one character, so the fuel never runs
out in `replaceAll` itself. -/
def replaceAllF (pat rep : List Char) : Nat → List Char → List Char
  | 0, l => l
  | _ + 1, [] => []
  | f + 1, c :: t =>
    if lpre pat (c :: t) then rep ++ replaceAllF pat rep f (t.drop (pat.length - 1))
    else c :: replaceAllF pat rep f t

/-- Python `s.replace(pat, rep)` for a non-empty `pat`: replace every
non-overlapping occurrence, scanning left to right. -/
def replaceAll (pat rep : List Char) (l : List Char) : List Char :=
  replaceAllF pat rep l.length l

/-- The literal `'error code: '` searched by `re.search` in `extract_error_info`. -/
def codeTok : List Char := "error code: ".toList

/-- The literal `'details: '` searched by `re.search` in `extract_error_info`. -/
def detailsTok : List Char := "details: ".toList

/-- The wrapper token `'[PilotException('` stripped from the detail message. -/
def pilotTok : List Char := "[PilotException(".toList

/-- `re.search('error code: (\\d+)', err)`: first position where the literal
token is followed by at least one digit; the capture is the maximal digit
run there. -/
def findCode : List Char → Option (List Char)
  | [] => none
  | c :: t =>
    if lpre codeTok (c :: t) then
      match (c :: t).drop codeTok.length with
      | d :: r => if d.isDigit then some ((d :: r).takeWhile Char.isDigit) else findCode t
      | [] => findCode t
    else findCode t

/-- `re.search('details: (.+)', err)`: first position where the literal token
is followed by at least one non-newline character; the capture runs greedily
to the next newline or the end of the string. -/
def findDetails : List Char → Option (List Char)
  | [] => none
  | c :: t =>
    if lpre detailsTok (c :: t) then
      match (c :: t).drop detailsTok.length with
      | d :: r =>
          if d = '\n' then findDetails t
          else some ((d :: r).takeWhile (fun x => x ≠ '\n'))
      | [] => findDetails t
    else findDetails t

/-- `extract_error_info(err)` of `stagein.py` (lines 313-327): the code is the
captured digit string when `'error code: (\\d+)'` matches and the int `0`
otherwise; the message is the `'details: (.+)'` capture with the
`'[PilotException('` token removed and whitespace stripped, and `""` when
there is no match. -/
def extract_error_info (err : List Char) : PyVal × List Char :=
  let error_code : PyVal :=
    match findCode err with
    | some d => PyVal.pstr d
    | none => PyVal.pint 0
  let error_message : List Char :=
    match findDetails err with
    | some m => pyStrip (replaceAll pilotTok [] m)
    | none => []
  (error_code, error_message)

/-- Python `int(x)` digit-run validity after the optional sign: non-empty,
starts and ends with a digit, single underscores only between digits. -/
def duOk : List Char → Bool
  | [] => false
  | [c] => c.isDigit
  | _ :: '_' :: [] => false
  | c :: '_' :: e :: u => c.isDigit && e.isDigit && duOk (e :: u)
  | c :: d :: t => c.isDigit && duOk (d :: t)

/-- Numeric value of a digit-and-underscore run (underscores ignored). -/
def digitsVal (l : List Char) : Nat :=
  (l.filter (fun c => c ≠ '_')).foldl (fun n c => n * 10 + (c.toNat - 48)) 0

/-- Python `int(x)` on a string: strip whitespace, optional sign, digit run
(with underscore separators); `none` models the raised `ValueError`. -/
def pyInt (s : List Char) : Option Int :=
  match pyStrip s with
  | '+' :: r => if duOk r then some (digitsVal r) else none
  | '-' :: r => if duOk r then some (-(digitsVal r : Int)) else none
  | r => if duOk r then some (digitsVal r) else none

/-- The loop body of `str_to_int_list` (lines 217-225): append `int(x)` when
it parses, `None` when the conversion raises. -/
def strToIntGo : List (List Char) → List (Option Int) → List (Option Int)
  | [], acc => acc
  | x :: t, acc => strToIntGo t (acc ++ [pyInt x])

/-- `str_to_int_list(_list)` of `stagein.py`: element-wise `int` conversion
with `None` substituted on failure. -/
def str_to_int_list (l : List (List Char)) : List (Option Int) :=
  strToIntGo l []

/-- The lookup `changes.get(x, x)` of `str_to_bool_list` with
`changes = {"True": True, "False": False, "None": None, "NULL": None}`:
only the four literal string keys are mapped, everything else is returned
unchanged. -/
def changesGet (x : PyVal) : PyVal :=
  if x = PyVal.pstr "True".toList then PyVal.pbool true
  else if x = PyVal.pstr "False".toList then PyVal.pbool false
  else if x = PyVal.pstr "None".toList then PyVal.pnone
  else if x = PyVal.pstr "NULL".toList then PyVal.pnone
  else x

/-- `str_to_bool_list(_list)` of `stagein.py` (lines 228-230):
`[changes.get(x, x) for x in _list]`. -/
def str_to_bool_list (l : List PyVal) : List PyVal :=
  l.map changesGet

/-- One step of `str.split(',')`: `cur` is the reversed current chunk. -/
def pySplitGo : List Char → List Char → List (List Char)
  | [], cur => [cur.reverse]
  | c :: t, cur => if c = ',' then cur.reverse :: pySplitGo t [] else pySplitGo t (c :: cur)

/-- Python `s.split(',')`; note `"".split(',') == [""]`. -/
def pySplit (s : List Char) : List (List Char) :=
  pySplitGo s []

/-- The twelve per-file sequences produced by `get_file_lists`. -/
structure FileLists : Type where
  lfns : List (List Char)
  scopes : List (List Char)
  filesizes : List (Option Int)
  checksums : List (List Char)
  allowlans : List PyVal
  allowwans : List PyVal
  directaccesslans : List PyVal
  directaccesswans : List PyVal
  istars : List PyVal
  accessmodes : List (List Char)
  storagetokens : List (List Char)
  guids : List (List Char)
  deriving DecidableEq, Repr

/-- The all-empty `FileLists`, the initial values of the twelve local
variables of `get_file_lists`. -/
def emptyFileLists : FileLists :=
  ⟨[], [], [], [], [], [], [], [], [], [], [], []⟩

/-- `get_file_lists(...)` of `stagein.py` (lines 233-276).  Each argument is
`some s` for a string and `none` for Python `None` (whose `.split(',')`
raises).  The assignments run in order inside one `try`; the first raising
field aborts the remaining assignments, the exception is caught and logged,
and whatever was assigned so far is returned (later fields keep their
initial empty value). -/
def get_file_lists (lfns scopes filesizes checksums allowlans allowwans
    directaccesslans directaccesswans istars accessmodes storagetokens
    guids : Option (List Char)) : FileLists :=
  match lfns with
  | none => emptyFileLists
  | some v1 =>
    let r1 := pySplit v1
    match scopes with
    | none => FileLists.mk r1 [] [] [] [] [] [] [] [] [] [] []
    | some v2 =>
      let r2 := pySplit v2
      match filesizes with
      | none => FileLists.mk r1 r2 [] [] [] [] [] [] [] [] [] []
      | some v3 =>
        let r3 := str_to_int_list (pySplit v3)
        match checksums with
        | none => FileLists.mk r1 r2 r3 [] [] [] [] [] [] [] [] []
        | some v4 =>
          let r4 := pySplit v4
          match allowlans with
          | none => FileLists.mk r1 r2 r3 r4 [] [] [] [] [] [] [] []
          | some v5 =>
            let r5 := str_to_bool_list ((pySplit v5).map PyVal.pstr)
            match allowwans with
            | none => FileLists.mk r1 r2 r3 r4 r5 [] [] [] [] [] [] []
            | some v6 =>
              let r6 := str_to_bool_list ((pySplit v6).map PyVal.pstr)
              match directaccesslans with
              | none => FileLists.mk r1 r2 r3 r4 r5 r6 [] [] [] [] [] []
              | some v7 =>
                let r7 := str_to_bool_list ((pySplit v7).map PyVal.pstr)
                match directaccesswans with
                | none => FileLists.mk r1 r2 r3 r4 r5 r6 r7 [] [] [] [] []
                | some v8 =>
                  let r8 := str_to_bool_list ((pySplit v8).map PyVal.pstr)
                  match istars with
                  | none => FileLists.mk r1 r2 r3 r4 r5 r6 r7 r8 [] [] [] []
                  | some v9 =>
                    let r9 := str_to_bool_list ((pySplit v9).map PyVal.pstr)
                    match accessmodes with
                    | none => FileLists.mk r1 r2 r3 r4 r5 r6 r7 r8 r9 [] [] []
                    | some v10 =>
                      let r10 := pySplit v10
                      match storagetokens with
                      | none => FileLists.mk r1 r2 r3 r4 r5 r6 r7 r8 r9 r10 [] []
                      | some v11 =>
                        let r11 := pySplit v11
                        match guids with
                        | none => FileLists.mk r1 r2 r3 r4 r5 r6 r7 r8 r9 r10 r11 []
                        | some v12 => FileLists.mk r1 r2 r3 r4 r5 r6 r7 r8 r9 r10 r11 (pySplit v12)

/-- Modelled from the spec: `pilot.info.FileSpec` is not part of the sources
under verification; per the spec's TransferDescriptor data model it stores
the keyword fields passed at construction (identity, physical attributes,
policy flags, the shared `workdir` and the `type` discriminator) plus the
outcome fields `status`, `status_code`, `turl`, absent (`None`) until the
backend populates them. -/
structure FileSpec : Type where
  ftype : List Char
  scope : List Char
  lfn : List Char
  workdir : List Char
  filesize : Option Int
  checksum : List Char
  allow_lan : PyVal
  allow_wan : PyVal
  direct_access_lan : PyVal
  direct_access_wan : PyVal
  is_tar : PyVal
  accessmode : PyVal
  storage_token : PyVal
  guid : List Char
  status : PyVal
  status_code : PyVal
  turl : PyVal
  deriving DecidableEq, Repr

/-- The token `'input'` stamped on every descriptor. -/
def inputTok : List Char := "input".toList

/-- The descriptor-building loop of `__main__` (lines 378-399): zip the
twelve reconciled lists positionally (Python `zip` truncates to the
shortest) and create one `FileSpec(type='input', **f)` per index from the
per-file dict of line 391-393, accumulating them in `xfiles`. -/
def build_xfiles (workdir : List Char) (lfns scopes : List (List Char))
    (filesizes : List (Option Int)) (checksums : List (List Char))
    (allowlans allowwans directaccesslans directaccesswans istars : List PyVal)
    (accessmodes storagetokens guids : List (List Char)) : List FileSpec :=
  match lfns with
  | [] => []
  | lfn :: t1 =>
  match scopes with
  | [] => []
  | scope :: t2 =>
  match filesizes with
  | [] => []
  | fs :: t3 =>
  match checksums with
  | [] => []
  | cs :: t4 =>
  match allowlans with
  | [] => []
  | al :: t5 =>
  match allowwans with
  | [] => []
  | aw :: t6 =>
  match directaccesslans with
  | [] => []
  | dal :: t7 =>
  match directaccesswans with
  | [] => []
  | daw :: t8 =>
  match istars with
  | [] => []
  | it :: t9 =>
  match accessmodes with
  | [] => []
  | am :: t10 =>
  match storagetokens with
  | [] => []
  | st :: t11 =>
  match guids with
  | [] => []
  | g :: t12 =>
    { ftype := inputTok, scope := scope, lfn := lfn, workdir := workdir, filesize := fs,
      checksum := cs, allow_lan := al, allow_wan := aw, direct_access_lan := dal,
      direct_access_wan := daw, is_tar := it, accessmode := PyVal.pstr am,
      storage_token := PyVal.pstr st, guid := g, status := PyVal.pnone,
      status_code := PyVal.pnone, turl := PyVal.pnone } ::
      build_xfiles workdir t1 t2 t3 t4 t5 t6 t7 t8 t9 t10 t11 t12

/-- A report entry value: the `[value1, value2, value3]` list stored by
`add_to_dictionary`. -/
abbrev Triple : Type := PyVal × PyVal × PyVal

/-- The status report: a Python dict, modelled as an insertion-ordered
association list with unique keys. -/
abbrev Dict : Type := List (List Char × Triple)

/-- Python `dictionary[key] = value`: overwrite in place when the key is
present (keeping its insertion position), append otherwise. -/
def dinsert (k : List Char) (v : Triple) : Dict → Dict
  | [] => [(k, v)]
  | (k', v') :: t => if k' = k then (k, v) :: t else (k', v') :: dinsert k v t

/-- Dict lookup (first entry with the key). -/
def dlookup (k : List Char) : Dict → Option Triple
  | [] => none
  | (k', v') :: t => if k' = k then some v' else dlookup k t

/-- Number of entries carrying key `k` (1 for every key of a real dict). -/
def countKey (k : List Char) : Dict → Nat
  | [] => 0
  | (k', _) :: t => (if k' = k then 1 else 0) + countKey k t

/-- `add_to_dictionary(dictionary, key, value1, value2, value3)` of
`stagein.py` (lines 296-310): `dictionary[key] = [value1, value2, value3]`. -/
def add_to_dictionary (d : Dict) (key : List Char) (v1 v2 v3 : PyVal) : Dict :=
  dinsert key (v1, v2, v3) d

/-- The reserved `'error'` key of the report. -/
def errorKey : List Char := "error".toList

/-- The per-file aggregation loop of `__main__` (lines 409-415): starting
from the empty dict and only when `xfiles` is non-empty, add
`fspec.lfn -> [fspec.status, fspec.status_code, fspec.turl]` for each
descriptor in order. -/
def buildFileDict (xfiles : List FileSpec) : Dict :=
  if xfiles.isEmpty then []
  else xfiles.foldl (fun d f => add_to_dictionary d f.lfn f.status f.status_code f.turl) []

/-- Lines 417-420 of `__main__`: when the captured error string is non-empty
it is re-split by `extract_error_info` into `(errcode, err)`; the final
`'error'` entry `[err, errcode, None]` is then added unconditionally.
`err0` is the captured `str(e)` (empty when the transfer call returned)
and `errcode0` the int error code accompanying it (`-1` on an exception,
`0` otherwise). -/
def finalErrPair (err0 : List Char) (errcode0 : Int) : PyVal × List Char :=
  if err0 ≠ [] then extract_error_info err0 else (PyVal.pint errcode0, err0)

/-- The aggregated status report of `__main__` (lines 409-420): the per-file
dict plus the mandatory `'error'` entry. -/
def buildReport (xfiles : List FileSpec) (err0 : List Char) (errcode0 : Int) : Dict :=
  let p := finalErrPair err0 errcode0
  add_to_dictionary (buildFileDict xfiles) errorKey (PyVal.pstr p.2) p.1 PyVal.pnone

/-- `TRANSFER_ERROR` of `stagein.py` (line 27). -/
def TRANSFER_ERROR : Nat := 12

/-- Observable tail events of the run: the report write, log messages and
the process exit. -/
inductive Event : Type where
  | wrote : List Char → Event
  | logged : List Char → Event
  | exited : Nat → Event
  deriving DecidableEq, Repr

/-- `os.path.join(workdir, name)` for the two-component case: `name` wins
when absolute, otherwise it is appended with a single separator. -/
def pyJoin (workdir name : List Char) : List Char :=
  match name with
  | '/' :: _ => name
  | _ =>
    match workdir with
    | [] => name
    | _ => if workdir.getLast? = some '/' then workdir ++ name else workdir ++ '/' :: name

/-- Result of the tail of `__main__`: the aggregated report, the artifact
path, the ordered observable events and the process exit code. -/
structure RunEnd : Type where
  report : Dict
  path : List Char
  events : List Event
  exitCode : Nat
  deriving DecidableEq, Repr

/-- Lines 417-429 of `__main__`: aggregate the report, write it to
`os.path.join(args.workdir, config.Container.stagein_dictionary)` (the
configured file name `cfg` is a parameter, the config module not being part
of the sources under verification), then exit with `TRANSFER_ERROR` when the
final error string is non-empty — after logging the failure — and with `0`
otherwise, after logging the path and the closing message. -/
def finalize (workdir cfg : List Char) (xfiles : List FileSpec) (err0 : List Char)
    (errcode0 : Int) : RunEnd :=
  let p := finalErrPair err0 errcode0
  let report := buildReport xfiles err0 errcode0
  let path := pyJoin workdir cfg
  if p.2 ≠ [] then
    { report := report, path := path,
      events := [Event.wrote path,
                 Event.logged ("containerised file transfers failed: ".toList ++ p.2),
                 Event.exited TRANSFER_ERROR],
      exitCode := TRANSFER_ERROR }
  else
    { report := report, path := path,
      events := [Event.wrote path,
                 Event.logged ("wrote ".toList ++ path),
                 Event.logged "containerised file transfers finished".toList,
                 Event.exited 0],
      exitCode := 0 }

/-- The length-mismatch diagnostic of `__main__` (lines 352-353): the log
line is emitted iff `len(lfns) != len(scopes)`. -/
def mismatch_logged (lfns scopes : List (List Char)) : Bool :=
  decide (lfns.length ≠ scopes.length)

/-- Last descriptor of a list whose `lfn` is `k` (specification device for
the last-write-wins property of the aggregation loop). -/
def lastWith (k : List Char) : List FileSpec → Option FileSpec
  | [] => none
  | f :: t =>
    match lastWith k t with
    | some g => some g
    | none => if f.lfn = k then some f else none

/-- The sample input of the spec's Error Extractor test vector. -/
def c4input : List Char :=
  "... error code: 42 ... details: something [PilotException(oops".toList

/-! ## Dictionary lemmas -/

theorem dlookup_dinsert_self (k : List Char) (v : Triple) (d : Dict) :
    dlookup k (dinsert k v d) = some v := by
  induction d with
  | nil => simp [dinsert, dlookup]
  | cons p t ih =>
    obtain ⟨k', v'⟩ := p
    by_cases h : k' = k
    · simp [dinsert, dlookup, h]
    · simp [dinsert, dlookup, h, ih]

theorem dlookup_dinsert_other (k k' : List Char) (v : Triple) (d : Dict) (h : k' ≠ k) :
    dlookup k' (dinsert k v d) = dlookup k' d := by
  induction d with
  | nil => simp [dinsert, dlookup, Ne.symm h]
  | cons p t ih =>
    obtain ⟨k0, v0⟩ := p
    by_cases h0 : k0 = k
    · subst h0
      simp [dinsert, dlookup, Ne.symm h]
    · simp [dinsert, dlookup, h0, ih]

theorem countKey_dinsert_self (k : List Char) (v : Triple) (d : Dict)
    (h : countKey k d ≤ 1) : countKey k (dinsert k v d) = 1 := by
  induction d with
  | nil => simp [dinsert, countKey]
  | cons p t ih =>
    obtain ⟨k', v'⟩ := p
    by_cases hk : k' = k
    · subst hk
      simp [dinsert, countKey] at h ⊢
      omega
    · simp [dinsert, countKey, hk] at h ⊢
      exact ih h

theorem countKey_dinsert_other (k k' : List Char) (v : Triple) (d : Dict) (h : k' ≠ k) :
    countKey k' (dinsert k v d) = countKey k' d := by
  induction d with
  | nil => simp [dinsert, countKey, Ne.symm h]
  | cons p t ih =>
    obtain ⟨k0, v0⟩ := p
    by_cases h0 : k0 = k
    · subst h0
      simp [dinsert, countKey, Ne.symm h]
    · simp [dinsert, countKey, h0, ih]

theorem countKey_foldl_le_one (fs : List FileSpec) (d : Dict)
    (h : ∀ k, countKey k d ≤ 1) (k : List Char) :
    countKey k
      (fs.foldl (fun d f => add_to_dictionary d f.lfn f.status f.status_code f.turl) d) ≤ 1 := by
  induction fs generalizing d with
  | nil => exact h k
  | cons f t ih =>
    simp only [List.foldl_cons]
    refine ih (add_to_dictionary d f.lfn f.status f.status_code f.turl) ?_
    intro k0
    unfold add_to_dictionary
    by_cases hk : f.lfn = k0
    · subst hk
      exact le_of_eq (countKey_dinsert_self _ _ _ (h f.lfn))
    · rw [countKey_dinsert_other _ _ _ _ (fun hh => hk hh.symm)]
      exact h k0

theorem countKey_buildFileDict (xfs : List FileSpec) (k : List Char) :
    countKey k (buildFileDict xfs) ≤ 1 := by
  unfold buildFileDict
  by_cases h : xfs.isEmpty
  · simp [h, countKey]
  · simp only [h, if_false]
    exact countKey_foldl_le_one xfs [] (fun _ => by simp [countKey]) k

/-! ## Claim theorems -/

/-- C1: Every run's aggregated report contains exactly one `error` key, and
when the transfer call returned without raising (captured error string empty,
error code 0) its value is the triple `("", 0, None)`. -/
theorem stagein_single_error_entry (xfs : List FileSpec) (e0 : List Char) (c0 : Int) :
    countKey errorKey (buildReport xfs e0 c0) = 1 ∧
      dlookup errorKey (buildReport xfs [] 0) = some (PyVal.pstr [], PyVal.pint 0, PyVal.pnone) := by
  constructor
  · unfold buildReport add_to_dictionary
    exact countKey_dinsert_self _ _ _ (countKey_buildFileDict xfs errorKey)
  · unfold buildReport add_to_dictionary
    rw [dlookup_dinsert_self]
    simp [finalErrPair]

-- The loop of `str_to_int_list` appends one converted element per input.
theorem strToIntGo_eq (l : List (List Char)) (acc : List (Option Int)) :
    strToIntGo l acc = acc ++ l.map pyInt := by
  induction l generalizing acc with
  | nil => simp [strToIntGo]
  | cons x t ih => simp [strToIntGo, ih]

/-- C9: `str_to_int_list` is total (the per-element `int` conversion failure
is caught and becomes `None`), preserves the length of its input, and maps
the `i`-th element to its integer value exactly when it parses as a Python
integer and to `None` otherwise. -/
theorem stagein_str_to_int_list_spec (l : List (List Char)) (i : Nat) :
    (str_to_int_list l).length = l.length ∧
      (str_to_int_list l).get? i = (l.get? i).map pyInt := by
  unfold str_to_int_list
  rw [strToIntGo_eq]
  simp [List.get?_map]

-- `changesGet` only ever produces a boolean, `None`, or its input.
theorem changesGet_cases (x : PyVal) :
    changesGet x = x ∨ changesGet x = PyVal.pbool true ∨
      changesGet x = PyVal.pbool false ∨ changesGet x = PyVal.pnone := by
  unfold changesGet
  split_ifs <;> simp

-- `changesGet` is idempotent: its image avoids the four mapped tokens.
theorem changesGet_idem (x : PyVal) : changesGet (changesGet x) = changesGet x := by
  rcases changesGet_cases x with h | h | h | h
  · simp only [h]
  · simp only [h]; decide
  · simp only [h]; decide
  · simp only [h]; decide

/-- C10: `str_to_bool_list` maps the literal string tokens `"True"` and
`"False"` to the booleans, `"None"` and `"NULL"` to `None`, passes every
other element (strings outside the token set, and already-coerced booleans
and `None`) through unchanged, and is consequently idempotent. -/
theorem stagein_str_to_bool_list_spec (l : List PyVal) (i : Nat) (x : PyVal) :
    (l.get? i = some x →
      (str_to_bool_list l).get? i = some (
        if x = PyVal.pstr "True".toList then PyVal.pbool true
        else if x = PyVal.pstr "False".toList then PyVal.pbool false
        else if x = PyVal.pstr "None".toList ∨ x = PyVal.pstr "NULL".toList then PyVal.pnone
        else x)) ∧
      str_to_bool_list (str_to_bool_list l) = str_to_bool_list l := by
  constructor
  · intro hx
    unfold str_to_bool_list
    rw [List.get?_map, hx]
    show some (changesGet x) = _
    unfold changesGet
    by_cases h1 : x = PyVal.pstr "True".toList
    · rw [if_pos h1, if_pos h1]
    · rw [if_neg h1, if_neg h1]
      by_cases h2 : x = PyVal.pstr "False".toList
      · rw [if_pos h2, if_pos h2]
      · rw [if_neg h2, if_neg h2]
        by_cases h3 : x = PyVal.pstr "None".toList
        · rw [if_pos h3, if_pos (Or.inl h3)]
        · rw [if_neg h3]
          by_cases h4 : x = PyVal.pstr "NULL".toList
          · rw [if_pos h4, if_pos (Or.inr h4)]
          · rw [if_neg h4, if_neg (not_or.mpr ⟨h3, h4⟩)]
  · unfold str_to_bool_list
    rw [List.map_map]
    exact List.map_congr_left (fun x _ => changesGet_idem x)

/-- Witness for C10 at concrete inputs: the token `"None"` in position 1 of
a two-element list is coerced to `None`. -/
theorem stagein_str_to_bool_list_spec_witness :
    (str_to_bool_list [PyVal.pbool true, PyVal.pstr "None".toList]).get? 1 =
      some PyVal.pnone := by
  have h := (stagein_str_to_bool_list_spec [PyVal.pbool true, PyVal.pstr "None".toList] 1
    (PyVal.pstr "None".toList)).1 (by decide)
  simpa using h

-- A string without the `'error code: '` substring yields no code match.
theorem findCode_eq_none (s : List Char) (h : hasSub s codeTok = false) :
    findCode s = none := by
  induction s with
  | nil => rfl
  | cons c t ih =>
    unfold hasSub at h
    rw [Bool.or_eq_false_iff] at h
    unfold findCode
    rw [h.1]
    simp only [Bool.false_eq_true, if_false]
    exact ih h.2

-- A string without the `'details: '` substring yields no message match.
theorem findDetails_eq_none (s : List Char) (h : hasSub s detailsTok = false) :
    findDetails s = none := by
  induction s with
  | nil => rfl
  | cons c t ih =>
    unfold hasSub at h
    rw [Bool.or_eq_false_iff] at h
    unfold findDetails
    rw [h.1]
    simp only [Bool.false_eq_true, if_false]
    exact ih h.2

/-- C4 counterexample: on the spec's own test vector the extractor keeps the
surrounding text `"something "` of the detail capture, so the message is
`"something oops"`, not `"oops"` as the claim states. -/
theorem stagein_extract_error_info_claim_counterexample :
    (extract_error_info c4input).1 = PyVal.pstr "42".toList ∧
      (extract_error_info c4input).2 = "something oops".toList ∧
      "something oops".toList ≠ "oops".toList := by
  decide

/-- C4 (amended): on the test vector the extractor returns code `"42"` and
message `"something oops"` (only the wrapper token stripped and whitespace
trimmed; surrounding text of the capture is kept); on an input containing
neither `'error code: '` nor `'details: '` it returns the int `0` and `""`.
It is a total function (the embedding raises nothing by construction). -/
theorem stagein_extract_error_info_amended :
    extract_error_info c4input = (PyVal.pstr "42".toList, "something oops".toList) ∧
      ∀ s : List Char, hasSub s codeTok = false → hasSub s detailsTok = false →
        extract_error_info s = (PyVal.pint 0, []) := by
  refine ⟨by decide, ?_⟩
  intro s h1 h2
  simp [extract_error_info, findCode_eq_none s h1, findDetails_eq_none s h2]

/-- Witness for C4 (amended) at a concrete patternless input. -/
theorem stagein_extract_error_info_amended_witness :
    extract_error_info "no patterns".toList = (PyVal.pint 0, []) :=
  stagein_extract_error_info_amended.2 "no patterns".toList (by decide) (by decide)

/-- C5 counterexample: with `lfns="a,b"` and `scopes="c"` already split and
the `filesizes` field `None` (so its `.split` raises), `get_file_lists`
returns `lfns=["a","b"]` — not empty sequences for all fields as the claim
states. -/
theorem stagein_get_file_lists_claim_counterexample :
    (get_file_lists (some "a,b".toList) (some "c".toList) none (some "d".toList)
        (some "True".toList) (some "True".toList) (some "False".toList) (some "False".toList)
        (some "False".toList) (some "".toList) (some "".toList) (some "g".toList)).lfns =
      ["a".toList, "b".toList] ∧
      ["a".toList, "b".toList] ≠ ([] : List (List Char)) := by
  decide

/-- C5 (amended): an exception while splitting any one of the input fields
(the field being `None`, whose `.split` raises) is caught and the run
continues, but only the failing field and every field after it degrade to
empty sequences; all fields parsed before the failing one keep their parsed
values.  One conjunct per failing position. -/
theorem stagein_get_file_lists_amended :
    (∀ a2 a3 a4 a5 a6 a7 a8 a9 a10 a11 a12 : Option (List Char),
      get_file_lists none a2 a3 a4 a5 a6 a7 a8 a9 a10 a11 a12 = emptyFileLists) ∧
    (∀ (v1 : List Char) (a3 a4 a5 a6 a7 a8 a9 a10 a11 a12 : Option (List Char)),
      get_file_lists (some v1) none a3 a4 a5 a6 a7 a8 a9 a10 a11 a12 =
        FileLists.mk (pySplit v1) [] [] [] [] [] [] [] [] [] [] []) ∧
    (∀ (v1 v2 : List Char) (a4 a5 a6 a7 a8 a9 a10 a11 a12 : Option (List Char)),
      get_file_lists (some v1) (some v2) none a4 a5 a6 a7 a8 a9 a10 a11 a12 =
        FileLists.mk (pySplit v1) (pySplit v2) [] [] [] [] [] [] [] [] [] []) ∧
    (∀ (v1 v2 v3 : List Char) (a5 a6 a7 a8 a9 a10 a11 a12 : Option (List Char)),
      get_file_lists (some v1) (some v2) (some v3) none a5 a6 a7 a8 a9 a10 a11 a12 =
        FileLists.mk (pySplit v1) (pySplit v2) (str_to_int_list (pySplit v3))
          [] [] [] [] [] [] [] [] []) ∧
    (∀ (v1 v2 v3 v4 : List Char) (a6 a7 a8 a9 a10 a11 a12 : Option (List Char)),
      get_file_lists (some v1) (some v2) (some v3) (some v4) none a6 a7 a8 a9 a10 a11 a12 =
        FileLists.mk (pySplit v1) (pySplit v2) (str_to_int_list (pySplit v3)) (pySplit v4)
          [] [] [] [] [] [] [] []) ∧
    (∀ (v1 v2 v3 v4 v5 : List Char) (a7 a8 a9 a10 a11 a12 : Option (List Char)),
      get_file_lists (some v1) (some v2) (some v3) (some v4) (some v5) none
          a7 a8 a9 a10 a11 a12 =
        FileLists.mk (pySplit v1) (pySplit v2) (str_to_int_list (pySplit v3)) (pySplit v4)
          (str_to_bool_list ((pySplit v5).map PyVal.pstr)) [] [] [] [] [] [] []) ∧
    (∀ (v1 v2 v3 v4 v5 v6 : List Char) (a8 a9 a10 a11 a12 : Option (List Char)),
      get_file_lists (some v1) (some v2) (some v3) (some v4) (some v5) (some v6) none
          a8 a9 a10 a11 a12 =
        FileLists.mk (pySplit v1) (pySplit v2) (str_to_int_list (pySplit v3)) (pySplit v4)
          (str_to_bool_list ((pySplit v5).map PyVal.pstr))
          (str_to_bool_list ((pySplit v6).map PyVal.pstr)) [] [] [] [] [] []) ∧
    (∀ (v1 v2 v3 v4 v5 v6 v7 : List Char) (a9 a10 a11 a12 : Option (List Char)),
      get_file_lists (some v1) (some v2) (some v3) (some v4) (some v5) (some v6) (some v7)
          none a9 a10 a11 a12 =
        FileLists.mk (pySplit v1) (pySplit v2) (str_to_int_list (pySplit v3)) (pySplit v4)
          (str_to_bool_list ((pySplit v5).map PyVal.pstr))
          (str_to_bool_list ((pySplit v6).map PyVal.pstr))
          (str_to_bool_list ((pySplit v7).map PyVal.pstr)) [] [] [] [] []) ∧
    (∀ (v1 v2 v3 v4 v5 v6 v7 v8 : List Char) (a10 a11 a12 : Option (List Char)),
      get_file_lists (some v1) (some v2) (some v3) (some v4) (some v5) (some v6) (some v7)
          (some v8) none a10 a11 a12 =
        FileLists.mk (pySplit v1) (pySplit v2) (str_to_int_list (pySplit v3)) (pySplit v4)
          (str_to_bool_list ((pySplit v5).map PyVal.pstr))
          (str_to_bool_list ((pySplit v6).map PyVal.pstr))
          (str_to_bool_list ((pySplit v7).map PyVal.pstr))
          (str_to_bool_list ((pySplit v8).map PyVal.pstr)) [] [] [] []) ∧
    (∀ (v1 v2 v3 v4 v5 v6 v7 v8 v9 : List Char) (a11 a12 : Option (List Char)),
      get_file_lists (some v1) (some v2) (some v3) (some v4) (some v5) (some v6) (some v7)
          (some v8) (some v9) none a11 a12 =
        FileLists.mk (pySplit v1) (pySplit v2) (str_to_int_list (pySplit v3)) (pySplit v4)
          (str_to_bool_list ((pySplit v5).map PyVal.pstr))
          (str_to_bool_list ((pySplit v6).map PyVal.pstr))
          (str_to_bool_list ((pySplit v7).map PyVal.pstr))
          (str_to_bool_list ((pySplit v8).map PyVal.pstr))
          (str_to_bool_list ((pySplit v9).map PyVal.pstr)) [] [] []) ∧
    (∀ (v1 v2 v3 v4 v5 v6 v7 v8 v9 v10 : List Char) (a12 : Option (List Char)),
      get_file_lists (some v1) (some v2) (some v3) (some v4) (some v5) (some v6) (some v7)
          (some v8) (some v9) (some v10) none a12 =
        FileLists.mk (pySplit v1) (pySplit v2) (str_to_int_list (pySplit v3)) (pySplit v4)
          (str_to_bool_list ((pySplit v5).map PyVal.pstr))
          (str_to_bool_list ((pySplit v6).map PyVal.pstr))
          (str_to_bool_list ((pySplit v7).map PyVal.pstr))
          (str_to_bool_list ((pySplit v8).map PyVal.pstr))
          (str_to_bool_list ((pySplit v9).map PyVal.pstr)) (pySplit v10) [] []) ∧
    (∀ (v1 v2 v3 v4 v5 v6 v7 v8 v9 v10 v11 : List Char),
      get_file_lists (some v1) (some v2) (some v3) (some v4) (some v5) (some v6) (some v7)
          (some v8) (some v9) (some v10) (some v11) none =
        FileLists.mk (pySplit v1) (pySplit v2) (str_to_int_list (pySplit v3)) (pySplit v4)
          (str_to_bool_list ((pySplit v5).map PyVal.pstr))
          (str_to_bool_list ((pySplit v6).map PyVal.pstr))
          (str_to_bool_list ((pySplit v7).map PyVal.pstr))
          (str_to_bool_list ((pySplit v8).map PyVal.pstr))
          (str_to_bool_list ((pySplit v9).map PyVal.pstr)) (pySplit v10) (pySplit v11) []) := by
  refine ⟨?_, ?_, ?_, ?_, ?_, ?_, ?_, ?_, ?_, ?_, ?_, ?_⟩ <;> intros <;> rfl

-- Looking a key up after the aggregation fold finds the last matching
-- descriptor's triple, or falls through to the initial dict.
theorem dlookup_foldl_add (fs : List FileSpec) (d : Dict) (k : List Char) :
    dlookup k (fs.foldl (fun d f => add_to_dictionary d f.lfn f.status f.status_code f.turl) d) =
      match lastWith k fs with
      | some g => some (g.status, g.status_code, g.turl)
      | none => dlookup k d := by
  induction fs generalizing d with
  | nil => simp [lastWith]
  | cons f t ih =>
    simp only [List.foldl_cons]
    rw [ih]
    cases h : lastWith k t with
    | some g => simp [lastWith, h]
    | none =>
      simp only [lastWith, h]
      by_cases hf : f.lfn = k
      · subst hf
        simp [add_to_dictionary, dlookup_dinsert_self]
      · simp only [hf, if_false]
        exact dlookup_dinsert_other _ _ _ _ (Ne.symm hf)

-- `lastWith` prefers matches in the right part of an append.
theorem lastWith_append (k : List Char) (a b : List FileSpec) :
    lastWith k (a ++ b) =
      match lastWith k b with
      | some g => some g
      | none => lastWith k a := by
  induction a with
  | nil => cases h : lastWith k b <;> simp [lastWith, h]
  | cons f t ih =>
    rw [List.cons_append, lastWith, ih]
    cases h : lastWith k b <;> cases h2 : lastWith k t <;> simp [lastWith, h, h2]

-- A list none of whose descriptors carries `k` has no last match.
theorem lastWith_eq_none (k : List Char) (l : List FileSpec)
    (h : ∀ g ∈ l, g.lfn ≠ k) : lastWith k l = none := by
  induction l with
  | nil => rfl
  | cons f t ih =>
    unfold lastWith
    rw [ih (fun g hg => h g (List.mem_cons_of_mem f hg))]
    simp [h f (List.mem_cons_self f t)]

-- The `'error'` entry of the aggregated report is always the processed
-- global error pair.
theorem dlookup_report_error (xfs : List FileSpec) (e0 : List Char) (c0 : Int) :
    dlookup errorKey (buildReport xfs e0 c0) =
      some (PyVal.pstr (finalErrPair e0 c0).2, (finalErrPair e0 c0).1, PyVal.pnone) := by
  simp only [buildReport, add_to_dictionary]
  exact dlookup_dinsert_self _ _ _

/-- C6: when two descriptors share a logical file name and the later one is
the last with that name, the aggregated report maps the name to the later
descriptor's `(status, status_code, turl)` triple only — the earlier entry
is overwritten, with no merging. -/
theorem stagein_last_write_wins (p m post : List FileSpec) (f1 f2 : FileSpec)
    (e0 : List Char) (c0 : Int) (h12 : f1.lfn = f2.lfn)
    (hpost : ∀ g ∈ post, g.lfn ≠ f2.lfn) (hkey : f2.lfn ≠ errorKey) :
    dlookup f2.lfn (buildReport (p ++ f1 :: m ++ f2 :: post) e0 c0) =
      some (f2.status, f2.status_code, f2.turl) := by
  simp only [buildReport, add_to_dictionary]
  rw [dlookup_dinsert_other _ _ _ _ hkey]
  unfold buildFileDict
  have hne : (p ++ f1 :: m ++ f2 :: post).isEmpty = false := by
    cases p <;> simp
  rw [hne]
  simp only [Bool.false_eq_true, if_false]
  rw [dlookup_foldl_add]
  have h1 : lastWith f2.lfn (f2 :: post) = some f2 := by
    unfold lastWith
    rw [lastWith_eq_none f2.lfn post hpost]
    simp
  have h2 : lastWith f2.lfn ((f1 :: m) ++ (f2 :: post)) = some f2 := by
    rw [lastWith_append, h1]
  have h4 : lastWith f2.lfn (p ++ (f1 :: m) ++ (f2 :: post)) = some f2 := by
    rw [List.append_assoc, lastWith_append, h2]
  rw [h4]

/-- Witness for C6 at concrete descriptors: two descriptors named `"f"`, the
later carrying status `"done"`, yield a report entry with the later triple. -/
theorem stagein_last_write_wins_witness :
    dlookup "f".toList
        (buildReport
          [FileSpec.mk inputTok [] "f".toList [] none [] PyVal.pnone PyVal.pnone PyVal.pnone PyVal.pnone PyVal.pnone PyVal.pnone PyVal.pnone [] (PyVal.pstr "failed".toList) (PyVal.pint 1) PyVal.pnone,
           FileSpec.mk inputTok [] "f".toList [] none [] PyVal.pnone PyVal.pnone PyVal.pnone PyVal.pnone PyVal.pnone PyVal.pnone PyVal.pnone [] (PyVal.pstr "done".toList) (PyVal.pint 0) (PyVal.pstr "turl".toList)]
          [] 0) =
      some (PyVal.pstr "done".toList, PyVal.pint 0, PyVal.pstr "turl".toList) := by
  exact stagein_last_write_wins [] [] []
    (FileSpec.mk inputTok [] "f".toList [] none [] PyVal.pnone PyVal.pnone PyVal.pnone PyVal.pnone PyVal.pnone PyVal.pnone PyVal.pnone [] (PyVal.pstr "failed".toList) (PyVal.pint 1) PyVal.pnone)
    (FileSpec.mk inputTok [] "f".toList [] none [] PyVal.pnone PyVal.pnone PyVal.pnone PyVal.pnone PyVal.pnone PyVal.pnone PyVal.pnone [] (PyVal.pstr "done".toList) (PyVal.pint 0) (PyVal.pstr "turl".toList))
    [] 0 rfl (by simp) (by decide)

-- `finalize` always carries the aggregated report unchanged.
theorem finalize_report (w cfg : List Char) (xfs : List FileSpec) (e0 : List Char) (c0 : Int) :
    (finalize w cfg xfs e0 c0).report = buildReport xfs e0 c0 := by
  unfold finalize
  by_cases hp : (finalErrPair e0 c0).2 = [] <;> simp [hp]

/-- C2: after aggregation the report is written, in every run, to
`os.path.join(workdir, configured-filename)` as the first observable event;
the process then exits — the exit is the last event — with code 12
(`TRANSFER_ERROR`) exactly when the error message stored in the report's
`error` entry is non-empty, and with code 0 exactly when it is empty. -/
theorem stagein_write_then_exit (w cfg : List Char) (xfs : List FileSpec) (e0 : List Char)
    (c0 : Int) (msg : List Char) (cv : PyVal)
    (h : dlookup errorKey (finalize w cfg xfs e0 c0).report =
      some (PyVal.pstr msg, cv, PyVal.pnone)) :
    (finalize w cfg xfs e0 c0).path = pyJoin w cfg ∧
      (finalize w cfg xfs e0 c0).events.head? =
        some (Event.wrote (finalize w cfg xfs e0 c0).path) ∧
      (finalize w cfg xfs e0 c0).events.getLast? =
        some (Event.exited (finalize w cfg xfs e0 c0).exitCode) ∧
      ((finalize w cfg xfs e0 c0).exitCode = TRANSFER_ERROR ↔ msg ≠ []) ∧
      ((finalize w cfg xfs e0 c0).exitCode = 0 ↔ msg = []) := by
  rw [finalize_report, dlookup_report_error] at h
  have hm : (finalErrPair e0 c0).2 = msg := by
    have := congrArg (fun o => o.map (fun t => t.1)) h
    simpa using this
  by_cases hp : (finalErrPair e0 c0).2 = []
  · rw [hp] at hm
    simp [finalize, hp, TRANSFER_ERROR, ← hm]
  · rw [hm] at hp
    simp [finalize, hm, hp, TRANSFER_ERROR]

/-- Witness for C2 at a concrete run: empty descriptor list, no captured
error; the report is written first and the exit code is 0. -/
theorem stagein_write_then_exit_witness :
    (finalize "wd".toList "out".toList [] [] 0).exitCode = 0 ∧
      (finalize "wd".toList "out".toList [] [] 0).events.head? =
        some (Event.wrote (finalize "wd".toList "out".toList [] [] 0).path) := by
  have h := stagein_write_then_exit "wd".toList "out".toList [] [] 0 [] (PyVal.pint 0)
    (by decide)
  exact ⟨h.2.2.2.2.mpr rfl, h.2.1⟩

/-- C3: when the transfer backend raises with a non-empty message containing
no `'details: '` substring, `extract_error_info` replaces the captured
global error string with the empty string, the report's `error` entry
carries an empty message, and the process exits with code 0 although the
dispatch failed; and exit code 12 is reached only when the extracted detail
message is non-empty. -/
theorem stagein_no_details_means_success (w cfg : List Char) (xfs : List FileSpec)
    (e0 : List Char) (c0 : Int) (h1 : e0 ≠ []) (h2 : hasSub e0 detailsTok = false) :
    (extract_error_info e0).2 = [] ∧
      (finalize w cfg xfs e0 c0).exitCode = 0 ∧
      dlookup errorKey (finalize w cfg xfs e0 c0).report =
        some (PyVal.pstr [], (extract_error_info e0).1, PyVal.pnone) ∧
      ∀ (e1 : List Char) (c1 : Int),
        (finalize w cfg xfs e1 c1).exitCode = TRANSFER_ERROR → (finalErrPair e1 c1).2 ≠ [] := by
  have hext : (extract_error_info e0).2 = [] := by
    simp [extract_error_info, findDetails_eq_none e0 h2]
  have hp : finalErrPair e0 c0 = extract_error_info e0 := by
    simp [finalErrPair, h1]
  have hp2 : (finalErrPair e0 c0).2 = [] := by rw [hp]; exact hext
  refine ⟨hext, ?_, ?_, ?_⟩
  · simp [finalize, hp2]
  · rw [finalize_report, dlookup_report_error, hp, hext]
  · intro e1 c1 hcode
    by_cases hq : (finalErrPair e1 c1).2 = []
    · exfalso
      simp [finalize, hq, TRANSFER_ERROR] at hcode
    · exact hq

/-- Witness for C3 at the concrete raised message `"boom"` (no `details: `
substring): the extracted message is empty and the run exits 0. -/
theorem stagein_no_details_means_success_witness :
    (extract_error_info "boom".toList).2 = [] ∧
      (finalize "wd".toList "out".toList [] "boom".toList (-1)).exitCode = 0 := by
  have h := stagein_no_details_means_success "wd".toList "out".toList [] "boom".toList (-1)
    (by decide) (by decide)
  exact ⟨h.1, h.2.1⟩

section BuildXfilesEquations

variable (w : List Char) (a1 a2 : List Char) (a3 : Option Int) (a4 : List Char)
variable (a5 a6 a7 a8 a9 : PyVal) (a10 a11 a12 : List Char)
variable (t1 t2 : List (List Char)) (t3 : List (Option Int)) (t4 : List (List Char))
variable (t5 t6 t7 t8 t9 : List PyVal) (t10 t11 t12 : List (List Char))
variable (l2 : List (List Char)) (l3 : List (Option Int)) (l4 : List (List Char))
variable (l5 l6 l7 l8 l9 : List PyVal) (l10 l11 l12 : List (List Char))

-- Reduction equations for the twelve-way zip of `build_xfiles`: the loop
-- stops as soon as any list is exhausted, and otherwise consumes one head
-- from each list.
theorem build_xfiles_stop1 : build_xfiles w [] l2 l3 l4 l5 l6 l7 l8 l9 l10 l11 l12 = [] := rfl

theorem build_xfiles_stop2 : build_xfiles w (a1 :: t1) [] l3 l4 l5 l6 l7 l8 l9 l10 l11 l12 = [] := rfl

theorem build_xfiles_stop3 : build_xfiles w (a1 :: t1) (a2 :: t2) [] l4 l5 l6 l7 l8 l9 l10 l11 l12 = [] := rfl

theorem build_xfiles_stop4 : build_xfiles w (a1 :: t1) (a2 :: t2) (a3 :: t3) [] l5 l6 l7 l8 l9 l10 l11 l12 = [] := rfl

theorem build_xfiles_stop5 : build_xfiles w (a1 :: t1) (a2 :: t2) (a3 :: t3) (a4 :: t4) [] l6 l7 l8 l9 l10 l11 l12 = [] := rfl

theorem build_xfiles_stop6 : build_xfiles w (a1 :: t1) (a2 :: t2) (a3 :: t3) (a4 :: t4) (a5 :: t5) [] l7 l8 l9 l10 l11 l12 = [] := rfl

theorem build_xfiles_stop7 : build_xfiles w (a1 :: t1) (a2 :: t2) (a3 :: t3) (a4 :: t4) (a5 :: t5) (a6 :: t6) [] l8 l9 l10 l11 l12 = [] := rfl

theorem build_xfiles_stop8 : build_xfiles w (a1 :: t1) (a2 :: t2) (a3 :: t3) (a4 :: t4) (a5 :: t5) (a6 :: t6) (a7 :: t7) [] l9 l10 l11 l12 = [] := rfl

theorem build_xfiles_stop9 : build_xfiles w (a1 :: t1) (a2 :: t2) (a3 :: t3) (a4 :: t4) (a5 :: t5) (a6 :: t6) (a7 :: t7) (a8 :: t8) [] l10 l11 l12 = [] := rfl

theorem build_xfiles_stop10 : build_xfiles w (a1 :: t1) (a2 :: t2) (a3 :: t3) (a4 :: t4) (a5 :: t5) (a6 :: t6) (a7 :: t7) (a8 :: t8) (a9 :: t9) [] l11 l12 = [] := rfl

theorem build_xfiles_stop11 : build_xfiles w (a1 :: t1) (a2 :: t2) (a3 :: t3) (a4 :: t4) (a5 :: t5) (a6 :: t6) (a7 :: t7) (a8 :: t8) (a9 :: t9) (a10 :: t10) [] l12 = [] := rfl

theorem build_xfiles_stop12 : build_xfiles w (a1 :: t1) (a2 :: t2) (a3 :: t3) (a4 :: t4) (a5 :: t5) (a6 :: t6) (a7 :: t7) (a8 :: t8) (a9 :: t9) (a10 :: t10) (a11 :: t11) [] = [] := rfl

theorem build_xfiles_cons :
    build_xfiles w (a1 :: t1) (a2 :: t2) (a3 :: t3) (a4 :: t4) (a5 :: t5) (a6 :: t6)
        (a7 :: t7) (a8 :: t8) (a9 :: t9) (a10 :: t10) (a11 :: t11) (a12 :: t12) =
      FileSpec.mk inputTok a2 a1 w a3 a4 a5 a6 a7 a8 a9 (PyVal.pstr a10) (PyVal.pstr a11)
          a12 PyVal.pnone PyVal.pnone PyVal.pnone ::
        build_xfiles w t1 t2 t3 t4 t5 t6 t7 t8 t9 t10 t11 t12 := rfl

end BuildXfilesEquations

-- The descriptor loop produces exactly as many descriptors as the shortest
-- of the twelve zipped lists (Python `zip` truncates).
set_option maxHeartbeats 1600000 in
theorem build_xfiles_length (w : List Char) (l1 l2 : List (List Char))
    (l3 : List (Option Int)) (l4 : List (List Char)) (l5 l6 l7 l8 l9 : List PyVal)
    (l10 l11 l12 : List (List Char)) :
    (build_xfiles w l1 l2 l3 l4 l5 l6 l7 l8 l9 l10 l11 l12).length =
      min l1.length (min l2.length (min l3.length (min l4.length (min l5.length
        (min l6.length (min l7.length (min l8.length (min l9.length (min l10.length
          (min l11.length l12.length)))))))))) := by
  induction l1 generalizing l2 l3 l4 l5 l6 l7 l8 l9 l10 l11 l12 with
  | nil =>
    rw [build_xfiles_stop1]
    simp
  | cons a1 t1 ih =>
    cases l2 with
    | nil =>
      rw [build_xfiles_stop2]
      simp
    | cons a2 t2 =>
      cases l3 with
      | nil =>
        rw [build_xfiles_stop3]
        simp
      | cons a3 t3 =>
        cases l4 with
        | nil =>
          rw [build_xfiles_stop4]
          simp
        | cons a4 t4 =>
          cases l5 with
          | nil =>
            rw [build_xfiles_stop5]
            simp
          | cons a5 t5 =>
            cases l6 with
            | nil =>
              rw [build_xfiles_stop6]
              simp
            | cons a6 t6 =>
              cases l7 with
              | nil =>
                rw [build_xfiles_stop7]
                simp
              | cons a7 t7 =>
                cases l8 with
                | nil =>
                  rw [build_xfiles_stop8]
                  simp
                | cons a8 t8 =>
                  cases l9 with
                  | nil =>
                    rw [build_xfiles_stop9]
                    simp
                  | cons a9 t9 =>
                    cases l10 with
                    | nil =>
                      rw [build_xfiles_stop10]
                      simp
                    | cons a10 t10 =>
                      cases l11 with
                      | nil =>
                        rw [build_xfiles_stop11]
                        simp
                      | cons a11 t11 =>
                        cases l12 with
                        | nil =>
                          rw [build_xfiles_stop12]
                          simp
                        | cons a12 t12 =>
                          rw [build_xfiles_cons]
                          simp only [List.length_cons,
                            ih t2 t3 t4 t5 t6 t7 t8 t9 t10 t11 t12,
                            Nat.add_min_add_right]

/-- C7: when the reconciled `lfns` and `scopes` lists have different lengths
(e.g. 3 lfns and 2 scopes) the pipeline emits the mismatch log line, and
descriptor building still runs to completion, producing descriptors up to
the shortest of the reconciled lists instead of raising an index error. -/
theorem stagein_mismatch_logged_truncates (w : List Char) (l1 l2 : List (List Char))
    (l3 : List (Option Int)) (l4 : List (List Char)) (l5 l6 l7 l8 l9 : List PyVal)
    (l10 l11 l12 : List (List Char)) (h : l1.length ≠ l2.length) :
    mismatch_logged l1 l2 = true ∧
      (build_xfiles w l1 l2 l3 l4 l5 l6 l7 l8 l9 l10 l11 l12).length =
        min l1.length (min l2.length (min l3.length (min l4.length (min l5.length
          (min l6.length (min l7.length (min l8.length (min l9.length (min l10.length
            (min l11.length l12.length)))))))))) := by
  refine ⟨?_, build_xfiles_length w l1 l2 l3 l4 l5 l6 l7 l8 l9 l10 l11 l12⟩
  simp [mismatch_logged, h]

/-- Witness for C7: 3 lfns against 2 scopes (all other lists of length 3)
log the mismatch and produce exactly 2 descriptors. -/
theorem stagein_mismatch_logged_truncates_witness :
    mismatch_logged ["a".toList, "b".toList, "c".toList] ["s".toList, "t".toList] = true ∧
      (build_xfiles [] ["a".toList, "b".toList, "c".toList] ["s".toList, "t".toList]
          [none, none, none] [[], [], []] [PyVal.pnone, PyVal.pnone, PyVal.pnone]
          [PyVal.pnone, PyVal.pnone, PyVal.pnone] [PyVal.pnone, PyVal.pnone, PyVal.pnone]
          [PyVal.pnone, PyVal.pnone, PyVal.pnone] [PyVal.pnone, PyVal.pnone, PyVal.pnone]
          [[], [], []] [[], [], []] [[], [], []]).length = 2 := by
  have h := stagein_mismatch_logged_truncates [] ["a".toList, "b".toList, "c".toList]
    ["s".toList, "t".toList] [none, none, none] [[], [], []]
    [PyVal.pnone, PyVal.pnone, PyVal.pnone] [PyVal.pnone, PyVal.pnone, PyVal.pnone]
    [PyVal.pnone, PyVal.pnone, PyVal.pnone] [PyVal.pnone, PyVal.pnone, PyVal.pnone]
    [PyVal.pnone, PyVal.pnone, PyVal.pnone] [[], [], []] [[], [], []] [[], [], []]
    (by decide)
  exact ⟨h.1, h.2.trans (by decide)⟩

set_option maxHeartbeats 1600000 in
/-- C8: for equal-length reconciled lists of size N the descriptor loop
builds exactly N descriptors; descriptor i carries the i-th element of every
list, the shared working directory, and the literal type `'input'`, with the
outcome fields still absent. -/
theorem stagein_build_xfiles_aligned (N : Nat) (w : List Char) (l1 l2 : List (List Char))
    (l3 : List (Option Int)) (l4 : List (List Char)) (l5 l6 l7 l8 l9 : List PyVal)
    (l10 l11 l12 : List (List Char))
    (h1 : l1.length = N) (h2 : l2.length = N) (h3 : l3.length = N) (h4 : l4.length = N)
    (h5 : l5.length = N) (h6 : l6.length = N) (h7 : l7.length = N) (h8 : l8.length = N)
    (h9 : l9.length = N) (h10 : l10.length = N) (h11 : l11.length = N) (h12 : l12.length = N) :
    (build_xfiles w l1 l2 l3 l4 l5 l6 l7 l8 l9 l10 l11 l12).length = N ∧
      ∀ i, i < N →
        (build_xfiles w l1 l2 l3 l4 l5 l6 l7 l8 l9 l10 l11 l12).get? i =
          some (FileSpec.mk inputTok (l2.getD i []) (l1.getD i []) w (l3.getD i none)
            (l4.getD i []) (l5.getD i PyVal.pnone) (l6.getD i PyVal.pnone)
            (l7.getD i PyVal.pnone) (l8.getD i PyVal.pnone) (l9.getD i PyVal.pnone)
            (PyVal.pstr (l10.getD i [])) (PyVal.pstr (l11.getD i [])) (l12.getD i [])
            PyVal.pnone PyVal.pnone PyVal.pnone) := by
  induction N generalizing l1 l2 l3 l4 l5 l6 l7 l8 l9 l10 l11 l12 with
  | zero =>
    rw [List.length_eq_zero] at h1 h2 h3 h4 h5 h6 h7 h8 h9 h10 h11 h12
    subst h1; subst h2; subst h3; subst h4; subst h5; subst h6
    subst h7; subst h8; subst h9; subst h10; subst h11; subst h12
    exact ⟨rfl, fun i hi => absurd hi (Nat.not_lt_zero i)⟩
  | succ n ih =>
    cases l1 with
    | nil => simp at h1
    | cons a1 t1 =>
      cases l2 with
      | nil => simp at h2
      | cons a2 t2 =>
        cases l3 with
        | nil => simp at h3
        | cons a3 t3 =>
          cases l4 with
          | nil => simp at h4
          | cons a4 t4 =>
            cases l5 with
            | nil => simp at h5
            | cons a5 t5 =>
              cases l6 with
              | nil => simp at h6
              | cons a6 t6 =>
                cases l7 with
                | nil => simp at h7
                | cons a7 t7 =>
                  cases l8 with
                  | nil => simp at h8
                  | cons a8 t8 =>
                    cases l9 with
                    | nil => simp at h9
                    | cons a9 t9 =>
                      cases l10 with
                      | nil => simp at h10
                      | cons a10 t10 =>
                        cases l11 with
                        | nil => simp at h11
                        | cons a11 t11 =>
                          cases l12 with
                          | nil => simp at h12
                          | cons a12 t12 =>
                            have H := ih t1 t2 t3 t4 t5 t6 t7 t8 t9 t10 t11 t12
                              (by simpa using h1) (by simpa using h2) (by simpa using h3)
                              (by simpa using h4) (by simpa using h5) (by simpa using h6)
                              (by simpa using h7) (by simpa using h8) (by simpa using h9)
                              (by simpa using h10) (by simpa using h11) (by simpa using h12)
                            constructor
                            · simp only [build_xfiles, List.length_cons, H.1]
                            · intro i hi
                              cases i with
                              | zero => simp [build_xfiles]
                              | succ j =>
                                simp only [build_xfiles, List.get?_cons_succ,
                                  List.getD_cons_succ]
                                exact H.2 j (Nat.lt_of_succ_lt_succ hi)

/-- Witness for C8: two files with distinct attributes produce two aligned
descriptors; the second carries every second-position input, the working
directory and the type `'input'`. -/
theorem stagein_build_xfiles_aligned_witness :
    (build_xfiles "wd".toList ["a".toList, "b".toList] ["sa".toList, "sb".toList]
        [some 1, some 2] ["ca".toList, "cb".toList] [PyVal.pbool true, PyVal.pbool false]
        [PyVal.pbool false, PyVal.pbool true] [PyVal.pnone, PyVal.pbool true]
        [PyVal.pbool true, PyVal.pnone] [PyVal.pbool false, PyVal.pnone]
        [[], "am".toList] [[], "st".toList] ["g1".toList, "g2".toList]).length = 2 ∧
      (build_xfiles "wd".toList ["a".toList, "b".toList] ["sa".toList, "sb".toList]
        [some 1, some 2] ["ca".toList, "cb".toList] [PyVal.pbool true, PyVal.pbool false]
        [PyVal.pbool false, PyVal.pbool true] [PyVal.pnone, PyVal.pbool true]
        [PyVal.pbool true, PyVal.pnone] [PyVal.pbool false, PyVal.pnone]
        [[], "am".toList] [[], "st".toList] ["g1".toList, "g2".toList]).get? 1 =
        some (FileSpec.mk inputTok "sb".toList "b".toList "wd".toList (some 2) "cb".toList
          (PyVal.pbool false) (PyVal.pbool true) (PyVal.pbool true) PyVal.pnone PyVal.pnone
          (PyVal.pstr "am".toList) (PyVal.pstr "st".toList) "g2".toList PyVal.pnone
          PyVal.pnone PyVal.pnone) := by
  have h := stagein_build_xfiles_aligned 2 "wd".toList ["a".toList, "b".toList]
    ["sa".toList, "sb".toList] [some 1, some 2] ["ca".toList, "cb".toList]
    [PyVal.pbool true, PyVal.pbool false] [PyVal.pbool false, PyVal.pbool true]
    [PyVal.pnone, PyVal.pbool true] [PyVal.pbool true, PyVal.pnone]
    [PyVal.pbool false, PyVal.pnone] [[], "am".toList] [[], "st".toList]
    ["g1".toList, "g2".toList] (by decide) (by decide) (by decide) (by decide) (by decide)
    (by decide) (by decide) (by decide) (by decide) (by decide) (by decide) (by decide)
  exact ⟨h.1, (h.2 1 (by decide)).trans (by decide)⟩

end Stagein
